import Mathlib

/-!
Shallow embedding of the now-client library (src/index.js): a thin
JavaScript client for the zeit now HTTP API.  JavaScript values are
modelled by the inductive `JSValue`; promise settlement by `Outcome`;
each endpoint method of `Now.prototype` is translated to a Lean
function that returns the `MethodAction` the method takes (short
circuit to a rejected promise, or issue one transport request).  The
transport itself is an external dependency and enters only as a
parameter `ReqConfig → Except JSValue JSValue` of `settle`.
-/

namespace NowJS

/-- A JavaScript runtime value, restricted to what the library
manipulates: primitives, plain objects as association lists, arrays,
and functions (opaque, tagged by a number so two can differ). -/
inductive JSValue where
  | undefined
  | null
  | bool (b : Bool)
  | num (n : Int)
  | str (s : String)
  | obj (fields : List (String × JSValue))
  | arr (elems : List JSValue)
  | func (tag : Nat)

/-- JavaScript truthiness: undefined, null, false, 0 and the empty
string are falsy; objects, arrays and functions are truthy. -/
def truthy : JSValue → Bool
  | .undefined => false
  | .null => false
  | .bool b => b
  | .num n => n != 0
  | .str s => s != ""
  | .obj _ => true
  | .arr _ => true
  | .func _ => true

/-- The typeof operator. -/
def jsTypeof : JSValue → String
  | .undefined => "undefined"
  | .null => "object"
  | .bool _ => "boolean"
  | .num _ => "number"
  | .str _ => "string"
  | .obj _ => "object"
  | .arr _ => "object"
  | .func _ => "function"

/-- First value bound to a key in an association list, undefined when
the key is absent. -/
def lookupField : List (String × JSValue) → String → JSValue
  | [], _ => .undefined
  | (k, v) :: rest, key => if k = key then v else lookupField rest key

/-- Total member access `v[key]`: the named own property of an object,
undefined on a missing property or a non-object base.  (Inherited
prototype properties are not modelled; the library never reads one.) -/
def jsGet : JSValue → String → JSValue
  | .obj fields, key => lookupField fields key
  | _, _ => .undefined

/-- Host string conversion, as used by template literals and by
`err.toString()`.  Stringification of arrays and of objects with a
custom toString is abstracted to a fixed rendering; no claim below
evaluates it on such a value. -/
def jsToString : JSValue → String
  | .undefined => "undefined"
  | .null => "null"
  | .bool true => "true"
  | .bool false => "false"
  | .num n => toString n
  | .str s => s
  | .obj _ => "[object Object]"
  | .arr _ => "[array]"
  | .func _ => "function"

/-- Throwing member access `v.key`: a TypeError on a nullish base,
otherwise the (total) property read. -/
def jsGetField (v : JSValue) (key : String) : Except JSValue JSValue :=
  match v with
  | .undefined =>
      .error (.str ("TypeError: Cannot read properties of undefined (reading " ++ key ++ ")"))
  | .null =>
      .error (.str ("TypeError: Cannot read properties of null (reading " ++ key ++ ")"))
  | w => .ok (jsGet w key)

/-- How the promise returned by handleError or handleRequest settles.
`unsettled` marks the case where the final catch handler itself throws
before calling reject: no downstream handler exists, so the outer
promise never settles.  (A throw in the then handler is not this case:
the chained catch picks it up and rejects.) -/
inductive Outcome where
  | fulfilled (v : JSValue)
  | rejected (v : JSValue)
  | unsettled

/-- The catch branch of handleRequest (src/index.js lines 112 to 123):
`if (err.data && err.data.err) errData = err.data.err; else if (err.data)
errData = err.data; else errData = err.toString()`.  Reading `err.data`
throws when err is nullish, which the source does not guard against. -/
def classifyError (err : JSValue) : Except JSValue JSValue :=
  match jsGetField err "data" with
  | .error e => .error e
  | .ok d =>
      if truthy d && truthy (jsGet d "err") then .ok (jsGet d "err")
      else if truthy d then .ok d
      else .ok (.str (jsToString err))

/-- handleRequest (src/index.js lines 104 to 125), given the result of
the transport call `this.request(config)`.  On success the then handler
runs `const data = selector ? res[selector] : res; resolve(data)`; when
`res` is nullish and the selector truthy, the read `res[selector]`
throws inside the then handler, the chained catch receives the
TypeError, classifies it (a TypeError has no data field, so the third
tier applies) and rejects with its string representation.  On a
transport failure the catch handler classifies the failure and rejects
with the classified value; only a throw inside the catch handler
itself (reading `err.data` off a nullish failure) has no downstream
handler and leaves the outer promise unsettled. -/
def handleRequest (transportResult : Except JSValue JSValue) (selector : JSValue) : Outcome :=
  match transportResult with
  | .ok res =>
      if truthy selector then
        match jsGetField res (jsToString selector) with
        | .ok v => .fulfilled v
        | .error e =>
            match classifyError e with
            | .ok errData => .rejected errData
            | .error _ => .unsettled
      else .fulfilled res
  | .error err =>
      match classifyError err with
      | .ok errData => .rejected errData
      | .error _ => .unsettled

/-- The selector strings the library ever passes to handleRequest: one
per enveloped endpoint (src/index.js lines 137, 247, 302, 354, 426,
466, 524). -/
def usedSelectors : List String :=
  ["deployments", "domains", "records", "certs", "created", "aliases", "secrets"]

/-- ERROR.MISSING_ID (src/index.js lines 7 to 10). -/
def ERROR_MISSING_ID : JSValue :=
  .obj [("code", .str "missing_id"), ("message", .str "Missing `id` parameter")]

/-- ERROR.MISSING_FILE_ID (src/index.js lines 11 to 14). -/
def ERROR_MISSING_FILE_ID : JSValue :=
  .obj [("code", .str "missing_file_id"), ("message", .str "Missing `fileId` parameter")]

/-- ERROR.MISSING_BODY (src/index.js lines 15 to 18). -/
def ERROR_MISSING_BODY : JSValue :=
  .obj [("code", .str "missing_body"), ("message", .str "Missing `body` parameter")]

/-- ERROR.MISSING_CN (src/index.js lines 19 to 22). -/
def ERROR_MISSING_CN : JSValue :=
  .obj [("code", .str "missing_cn"), ("message", .str "Missing `cn` parameter")]

/-- ERROR.MISSING_ALIAS (src/index.js lines 23 to 26): note its code is
the string missing_body, not a code naming the alias parameter. -/
def ERROR_MISSING_ALIAS : JSValue :=
  .obj [("code", .str "missing_body"), ("message", .str "Missing `alias` parameter")]

/-- ERROR.MISSING_NAME (src/index.js lines 27 to 30). -/
def ERROR_MISSING_NAME : JSValue :=
  .obj [("code", .str "missing_name"), ("message", .str "Missing `name` parameter")]

/-- ERROR.MISSING_VALUE (src/index.js lines 31 to 34). -/
def ERROR_MISSING_VALUE : JSValue :=
  .obj [("code", .str "missing_value"), ("message", .str "Missing `value` parameter")]

/-- The request description an endpoint method hands to handleRequest:
url, lowercase HTTP method, optional `body` payload, and the `data`
key that addDomainRecord uses instead of `body`. -/
structure ReqConfig where
  url : String
  method : String
  body : Option JSValue
  data : Option JSValue

/-- What one invocation of an endpoint method does: either it short
circuits through handleError (rejecting with a fixed error and making
no transport call), or it hands one ReqConfig to handleRequest along
with the callback and the selector argument (undefined when the call
site passes none). -/
inductive MethodAction where
  | rejectWith (err : JSValue) (callback : JSValue)
  | sendRequest (config : ReqConfig) (callback : JSValue) (selector : JSValue)

/-- Whether the action reaches the injected transport. -/
def makesRequest : MethodAction → Bool
  | .rejectWith _ _ => false
  | .sendRequest _ _ _ => true

/-- Settle the promise an endpoint method returns, given the transport.
handleError (src/index.js lines 96 to 101) rejects with the error it
was handed; handleRequest settles from the transport result. -/
def settle (a : MethodAction) (transport : ReqConfig → Except JSValue JSValue) : Outcome :=
  match a with
  | .rejectWith e _ => .rejected e
  | .sendRequest cfg _ sel => handleRequest (transport cfg) sel

/-- getDeployments (src/index.js lines 133 to 138). -/
def getDeployments (callback : JSValue) : MethodAction :=
  .sendRequest ⟨"/now/deployments", "get", none, none⟩ callback (.str "deployments")

/-- getDeployment (src/index.js lines 147 to 156). -/
def getDeployment (id callback : JSValue) : MethodAction :=
  if !truthy id then .rejectWith ERROR_MISSING_ID callback
  else .sendRequest ⟨"/now/deployments/" ++ jsToString id, "get", none, none⟩ callback .undefined

/-- createDeployment (src/index.js lines 167 to 177). -/
def createDeployment (body callback : JSValue) : MethodAction :=
  if !truthy body then .rejectWith ERROR_MISSING_BODY callback
  else .sendRequest ⟨"/now/deployments", "post", some body, none⟩ callback .undefined

/-- deleteDeployment (src/index.js lines 186 to 195). -/
def deleteDeployment (id callback : JSValue) : MethodAction :=
  if !truthy id then .rejectWith ERROR_MISSING_ID callback
  else .sendRequest ⟨"/now/deployments/" ++ jsToString id, "delete", none, none⟩ callback .undefined

/-- getFiles (src/index.js lines 204 to 213). -/
def getFiles (id callback : JSValue) : MethodAction :=
  if !truthy id then .rejectWith ERROR_MISSING_ID callback
  else
    .sendRequest ⟨"/now/deployments/" ++ jsToString id ++ "/files", "get", none, none⟩
      callback .undefined

/-- getFile (src/index.js lines 223 to 236): the id guard runs before
the fileId guard. -/
def getFile (id fileId callback : JSValue) : MethodAction :=
  if !truthy id then .rejectWith ERROR_MISSING_ID callback
  else if !truthy fileId then .rejectWith ERROR_MISSING_FILE_ID callback
  else
    .sendRequest
      ⟨"/now/deployments/" ++ jsToString id ++ "/files/" ++ jsToString fileId, "get", none, none⟩
      callback .undefined

/-- getDomains (src/index.js lines 243 to 248). -/
def getDomains (callback : JSValue) : MethodAction :=
  .sendRequest ⟨"/domains", "get", none, none⟩ callback (.str "domains")

/-- addDomain (src/index.js lines 259 to 272): the guard reads
`domain.name` with no nullish check on domain, so the property access
itself can throw a TypeError before any promise is produced. -/
def addDomain (domain callback : JSValue) : Except JSValue MethodAction :=
  match jsGetField domain "name" with
  | .error e => .error e
  | .ok nameV =>
      if jsTypeof nameV != "string" then .ok (.rejectWith ERROR_MISSING_NAME callback)
      else
        .ok (.sendRequest
          ⟨"/domains", "post",
            some (.obj [("name", nameV), ("isExternal", jsGet domain "isExternalDNS")]), none⟩
          callback .undefined)

/-- deleteDomain (src/index.js lines 281 to 290). -/
def deleteDomain (name callback : JSValue) : MethodAction :=
  if jsTypeof name != "string" then .rejectWith ERROR_MISSING_NAME callback
  else .sendRequest ⟨"/domains/" ++ jsToString name, "delete", none, none⟩ callback .undefined

/-- getDomainRecords (src/index.js lines 298 to 303). -/
def getDomainRecords (domain callback : JSValue) : MethodAction :=
  .sendRequest ⟨"/domains/" ++ jsToString domain ++ "/records", "get", none, none⟩
    callback (.str "records")

/-- addDomainRecord (src/index.js lines 312 to 318): the payload goes
under the `data` key of the config, not `body`. -/
def addDomainRecord (domain recordData callback : JSValue) : MethodAction :=
  .sendRequest ⟨"/domains/" ++ jsToString domain ++ "/records", "post", none, some recordData⟩
    callback .undefined

/-- deleteDomainRecord (src/index.js lines 327 to 332). -/
def deleteDomainRecord (domain recordId callback : JSValue) : MethodAction :=
  .sendRequest
    ⟨"/domains/" ++ jsToString domain ++ "/records/" ++ jsToString recordId, "delete", none, none⟩
    callback .undefined

/-- getCertificates (src/index.js lines 341 to 355): a function first
argument is taken as the callback; a string first argument is a common
name appended to the path; anything else leaves both defaults. -/
def getCertificates (cn callback : JSValue) : MethodAction :=
  let url := "/now/certs"
  let cb := callback
  let urlCb :=
    if jsTypeof cn = "function" then (url, cn)
    else if jsTypeof cn = "string" then ("/now/certs/" ++ jsToString cn, cb)
    else (url, cb)
  .sendRequest ⟨urlCb.1, "get", none, none⟩ urlCb.2 (.str "certs")

/-- createCertificate (src/index.js lines 363 to 375): the source
passes `cn` (not `callback`) to handleError on the guard path. -/
def createCertificate (cn callback : JSValue) : MethodAction :=
  if jsTypeof cn != "string" then .rejectWith ERROR_MISSING_CN cn
  else
    .sendRequest ⟨"/now/certs", "post", some (.obj [("domains", .arr [cn])]), none⟩
      callback .undefined

/-- renewCertificate (src/index.js lines 383 to 396). -/
def renewCertificate (cn callback : JSValue) : MethodAction :=
  if jsTypeof cn != "string" then .rejectWith ERROR_MISSING_CN cn
  else
    .sendRequest
      ⟨"/now/certs", "post", some (.obj [("domains", .arr [cn]), ("renew", .bool true)]), none⟩
      callback .undefined

/-- replaceCertificate (src/index.js lines 407 to 427). -/
def replaceCertificate (cn cert key ca callback : JSValue) : MethodAction :=
  let caCb :=
    if jsTypeof ca = "function" then ((JSValue.str ""), ca)
    else if jsTypeof ca = "string" then (ca, callback)
    else ((JSValue.str ""), callback)
  .sendRequest
    ⟨"/now/certs", "put",
      some (.obj [("domains", .arr [cn]), ("ca", caCb.1), ("cert", cert), ("key", key)]), none⟩
    caCb.2 (.str "created")

/-- deleteCertificate (src/index.js lines 435 to 444): like
createCertificate, the guard hands `cn` to handleError as callback. -/
def deleteCertificate (cn callback : JSValue) : MethodAction :=
  if jsTypeof cn != "string" then .rejectWith ERROR_MISSING_CN cn
  else .sendRequest ⟨"/now/certs/" ++ jsToString cn, "delete", none, none⟩ callback .undefined

/-- getAliases (src/index.js lines 453 to 467). -/
def getAliases (id callback : JSValue) : MethodAction :=
  let url := "/now/aliases"
  let cb := callback
  let urlCb :=
    if jsTypeof id = "function" then (url, id)
    else if jsTypeof id = "string" then ("/now/deployments/" ++ jsToString id ++ "/aliases", cb)
    else (url, cb)
  .sendRequest ⟨urlCb.1, "get", none, none⟩ urlCb.2 (.str "aliases")

/-- createAlias (src/index.js lines 477 to 493): the id guard runs
before the alias guard; the alias guard rejects with
ERROR.MISSING_ALIAS. -/
def createAlias (id aliasV callback : JSValue) : MethodAction :=
  if !truthy id then .rejectWith ERROR_MISSING_ID callback
  else if !truthy aliasV then .rejectWith ERROR_MISSING_ALIAS callback
  else
    .sendRequest
      ⟨"/now/deployments/" ++ jsToString id ++ "/aliases", "post",
        some (.obj [("alias", aliasV)]), none⟩
      callback .undefined

/-- deleteAlias (src/index.js lines 502 to 511). -/
def deleteAlias (id callback : JSValue) : MethodAction :=
  if !truthy id then .rejectWith ERROR_MISSING_ID callback
  else .sendRequest ⟨"/now/aliases/" ++ jsToString id, "delete", none, none⟩ callback .undefined

/-- getSecrets (src/index.js lines 520 to 525). -/
def getSecrets (callback : JSValue) : MethodAction :=
  .sendRequest ⟨"/now/secrets", "get", none, none⟩ callback (.str "secrets")

/-- createSecret (src/index.js lines 535 to 552): the name guard runs
before the value guard. -/
def createSecret (name value callback : JSValue) : MethodAction :=
  if !truthy name then .rejectWith ERROR_MISSING_NAME callback
  else if !truthy value then .rejectWith ERROR_MISSING_VALUE callback
  else
    .sendRequest ⟨"/now/secrets", "post", some (.obj [("name", name), ("value", value)]), none⟩
      callback .undefined

/-- renameSecret (src/index.js lines 562 to 578): the id guard runs
before the name guard. -/
def renameSecret (id name callback : JSValue) : MethodAction :=
  if !truthy id then .rejectWith ERROR_MISSING_ID callback
  else if !truthy name then .rejectWith ERROR_MISSING_NAME callback
  else
    .sendRequest ⟨"/now/secrets/" ++ jsToString id, "patch", some (.obj [("name", name)]), none⟩
      callback .undefined

/-- deleteSecret (src/index.js lines 587 to 596). -/
def deleteSecret (id callback : JSValue) : MethodAction :=
  if !truthy id then .rejectWith ERROR_MISSING_ID callback
  else .sendRequest ⟨"/now/secrets/" ++ jsToString id, "delete", none, none⟩ callback .undefined

/-- The token sources outside the explicit constructor argument: the
NOW_TOKEN environment variable (undefined or a string), and the result
of requiring the JSON config file in the home directory (error when
the require call throws, for example because the file is missing). -/
structure Env where
  nowToken : JSValue
  configFile : Except JSValue JSValue

/-- The token resolution routine (src/index.js lines 42 to 55): start
from NOW_TOKEN; when that is falsy, try to read `.token` off the
required config file, and on any throw (require or the property read)
log the error and keep the prior value. -/
def _getToken (env : Env) : JSValue :=
  let token := env.nowToken
  if !truthy token then
    match env.configFile with
    | .error _ => token
    | .ok cfg =>
        match jsGetField cfg "token" with
        | .error _ => token
        | .ok t => t
  else token

/-- Whether a value is the undefined value (what triggers a default
parameter in JavaScript). -/
def isUndefined : JSValue → Bool
  | .undefined => true
  | _ => false

/-- The token the constructor works with: the default parameter
`token = _getToken()` (src/index.js line 62) fires exactly when the
explicit argument is undefined. -/
def resolvedToken (tokenArg : JSValue) (env : Env) : JSValue :=
  if isUndefined tokenArg then _getToken env else tokenArg

/-- The fields a successful construction configures: the stored token
and the request.defaults transport configuration (src/index.js lines
75 to 84). -/
structure NowClient where
  token : JSValue
  requestBaseUrl : String
  requestTimeout : Nat
  requestJson : Bool
  requestAuthHeader : String

/-- request.defaults configuration built from the token. -/
def mkClient (token : JSValue) : NowClient :=
  ⟨token, "https://api.zeit.co", 30000, true, "Bearer " ++ jsToString token⟩

/-- The message console.error prints when no token resolves
(src/index.js lines 64 to 68). -/
def noTokenMessage : String :=
  "No token found! Supply it as argument or use the NOW_TOKEN env variable. `~/.now.json` will be used, if it\x27s found in your home directory."

/-- What calling the constructor yields: `noClient` when the body
returned early through console.error (which returns undefined, so no
field or transport is ever configured), carrying the logged message;
`client` when the instance was set up. -/
inductive ConstructResult where
  | noClient (loggedMessage : String)
  | client (c : NowClient)

/-- The body of `function Now(token = _getToken())` when `this` is
already an instance, that is a `new Now(...)` call (src/index.js lines
62 to 85): the missing token guard runs first, then the fields are
assigned.  Nothing in the body can throw. -/
def NowAsNew (tokenArg : JSValue) (env : Env) : ConstructResult :=
  let token := resolvedToken tokenArg env
  if !truthy token then .noClient noTokenMessage
  else .client (mkClient token)

/-- The same body for a plain `Now(...)` call: the missing token guard
still runs first; after it, `this instanceof Now` is false and the
body returns `new Now(token)` with the already resolved token. -/
def NowAsFunction (tokenArg : JSValue) (env : Env) : ConstructResult :=
  let token := resolvedToken tokenArg env
  if !truthy token then .noClient noTokenMessage
  else NowAsNew token env

/-- Member access through jsGetField never throws on a base that is
not nullish, and then agrees with the total read jsGet. -/
theorem jsGetField_ok (v : JSValue) (k : String)
    (h1 : v ≠ JSValue.undefined) (h2 : v ≠ JSValue.null) :
    jsGetField v k = .ok (jsGet v k) := by
  cases v <;> first | exact absurd rfl h1 | exact absurd rfl h2 | rfl

/-- Every selector string the library passes to handleRequest is a
nonempty string, hence truthy. -/
theorem usedSelectors_truthy (s : String) (h : s ∈ usedSelectors) :
    truthy (JSValue.str s) = true := by
  fin_cases h <;> decide

/-- A truthy value is not the undefined value. -/
theorem truthy_isUndefined_false (v : JSValue) (h : truthy v = true) :
    isUndefined v = false := by
  cases v <;> simp_all [truthy, isUndefined]

/-- When no pair of the association list carries the key, the lookup
yields undefined. -/
theorem lookupField_of_not_mem (fields : List (String × JSValue)) (key : String)
    (h : key ∉ fields.map Prod.fst) : lookupField fields key = JSValue.undefined := by
  induction fields with
  | nil => rfl
  | cons p rest ih =>
      obtain ⟨k, v⟩ := p
      rw [List.map_cons, List.mem_cons, not_or] at h
      show (if k = key then v else lookupField rest key) = JSValue.undefined
      rw [if_neg (fun e => h.1 e.symm)]
      exact ih h.2

/-- C1: for every failure object caught by handleRequest, the
rejection value follows the three tier classification in order: a
truthy `data` field with a truthy nested `err` field rejects with
exactly that `data.err` value; otherwise a truthy `data` field rejects
with exactly that `data` value; otherwise the call rejects with the
string representation of the failure. -/
theorem handleRequest_error_classification (err sel : JSValue)
    (h1 : err ≠ JSValue.undefined) (h2 : err ≠ JSValue.null) :
    (truthy (jsGet err "data") = true → truthy (jsGet (jsGet err "data") "err") = true →
      handleRequest (.error err) sel = .rejected (jsGet (jsGet err "data") "err"))
    ∧ (truthy (jsGet err "data") = true → truthy (jsGet (jsGet err "data") "err") = false →
      handleRequest (.error err) sel = .rejected (jsGet err "data"))
    ∧ (truthy (jsGet err "data") = false →
      handleRequest (.error err) sel = .rejected (.str (jsToString err))) := by
  have hd : jsGetField err "data" = .ok (jsGet err "data") := jsGetField_ok err "data" h1 h2
  refine ⟨?_, ?_, ?_⟩
  · intro ha hb
    simp [handleRequest, classifyError, hd, ha, hb]
  · intro ha hb
    simp [handleRequest, classifyError, hd, ha, hb]
  · intro ha
    simp [handleRequest, classifyError, hd, ha]

/-- Witness for C1: a failure whose error object carries
`data.err = (code: x)` rejects with exactly that nested structure. -/
theorem handleRequest_error_classification_witness :
    handleRequest
      (.error (JSValue.obj [("data", JSValue.obj [("err", JSValue.obj [("code", JSValue.str "x")])])]))
      JSValue.undefined
      = .rejected (JSValue.obj [("code", JSValue.str "x")]) :=
  (handleRequest_error_classification
    (JSValue.obj [("data", JSValue.obj [("err", JSValue.obj [("code", JSValue.str "x")])])])
    JSValue.undefined (fun h => nomatch h) (fun h => nomatch h)).1 rfl rfl

/-- C2: every endpoint method that requires an identifying parameter
(getDeployment, deleteDeployment, getFiles, getFile, createDeployment,
createAlias, deleteAlias, createSecret, renameSecret, deleteSecret),
invoked with that parameter falsy (any earlier guard satisfied),
short circuits to a rejection carrying the exact fixed error pair for
that parameter kind; the short circuit action makes no transport call
and settles rejected with that pair under every transport. -/
theorem missing_param_fail_fast :
    (∀ id cb, truthy id = false →
      getDeployment id cb = .rejectWith ERROR_MISSING_ID cb)
    ∧ (∀ id cb, truthy id = false →
      deleteDeployment id cb = .rejectWith ERROR_MISSING_ID cb)
    ∧ (∀ id cb, truthy id = false →
      getFiles id cb = .rejectWith ERROR_MISSING_ID cb)
    ∧ (∀ id fileId cb, truthy id = false →
      getFile id fileId cb = .rejectWith ERROR_MISSING_ID cb)
    ∧ (∀ id fileId cb, truthy id = true → truthy fileId = false →
      getFile id fileId cb = .rejectWith ERROR_MISSING_FILE_ID cb)
    ∧ (∀ body cb, truthy body = false →
      createDeployment body cb = .rejectWith ERROR_MISSING_BODY cb)
    ∧ (∀ id aliasV cb, truthy id = false →
      createAlias id aliasV cb = .rejectWith ERROR_MISSING_ID cb)
    ∧ (∀ id aliasV cb, truthy id = true → truthy aliasV = false →
      createAlias id aliasV cb = .rejectWith ERROR_MISSING_ALIAS cb)
    ∧ (∀ id cb, truthy id = false →
      deleteAlias id cb = .rejectWith ERROR_MISSING_ID cb)
    ∧ (∀ name value cb, truthy name = false →
      createSecret name value cb = .rejectWith ERROR_MISSING_NAME cb)
    ∧ (∀ name value cb, truthy name = true → truthy value = false →
      createSecret name value cb = .rejectWith ERROR_MISSING_VALUE cb)
    ∧ (∀ id name cb, truthy id = false →
      renameSecret id name cb = .rejectWith ERROR_MISSING_ID cb)
    ∧ (∀ id name cb, truthy id = true → truthy name = false →
      renameSecret id name cb = .rejectWith ERROR_MISSING_NAME cb)
    ∧ (∀ id cb, truthy id = false →
      deleteSecret id cb = .rejectWith ERROR_MISSING_ID cb)
    ∧ (∀ e cb transport, settle (.rejectWith e cb) transport = .rejected e)
    ∧ (∀ e cb, makesRequest (.rejectWith e cb) = false) := by
  refine ⟨?_, ?_, ?_, ?_, ?_, ?_, ?_, ?_, ?_, ?_, ?_, ?_, ?_, ?_, ?_, ?_⟩
  · intro id cb h; simp [getDeployment, h]
  · intro id cb h; simp [deleteDeployment, h]
  · intro id cb h; simp [getFiles, h]
  · intro id fileId cb h; simp [getFile, h]
  · intro id fileId cb h1 h2; simp [getFile, h1, h2]
  · intro body cb h; simp [createDeployment, h]
  · intro id aliasV cb h; simp [createAlias, h]
  · intro id aliasV cb h1 h2; simp [createAlias, h1, h2]
  · intro id cb h; simp [deleteAlias, h]
  · intro name value cb h; simp [createSecret, h]
  · intro name value cb h1 h2; simp [createSecret, h1, h2]
  · intro id name cb h; simp [renameSecret, h]
  · intro id name cb h1 h2; simp [renameSecret, h1, h2]
  · intro id cb h; simp [deleteSecret, h]
  · intro e cb transport; rfl
  · intro e cb; rfl

/-- Witness for C2: getDeployment with an undefined id short circuits
to the fixed missing id rejection. -/
theorem missing_param_fail_fast_witness :
    getDeployment JSValue.undefined JSValue.undefined
      = .rejectWith ERROR_MISSING_ID JSValue.undefined :=
  missing_param_fail_fast.1 JSValue.undefined JSValue.undefined rfl

/-- C3 (counterexample): the claim as stated fails at the successful
response body null with the certs selector: the read `res[selector]`
throws in the then handler, the chained catch classifies the TypeError
and the call rejects with its string representation, instead of
resolving with the (undefined) value of `responseBody[selector]`. -/
theorem selector_extraction_counterexample :
    handleRequest (.ok JSValue.null) (JSValue.str "certs")
      = .rejected (JSValue.str "TypeError: Cannot read properties of null (reading certs)")
    ∧ handleRequest (.ok JSValue.null) (JSValue.str "certs")
      ≠ .fulfilled (jsGet JSValue.null "certs") :=
  ⟨rfl, fun h => Outcome.noConfusion h⟩

/-- C3 as amended: for every successful transport response, a supplied
field selector (one of the selector strings the library passes) makes
the call resolve with exactly the selected field of the response body
provided the body is not nullish, and an omitted selector makes it
resolve with the whole decoded body unchanged; when the body is null
or undefined and a selector is supplied, the selector read throws in
the then handler and the chained catch rejects the call with the
stringified TypeError. -/
theorem selector_extraction :
    (∀ res sel, sel ∈ usedSelectors →
      res ≠ JSValue.undefined → res ≠ JSValue.null →
      handleRequest (.ok res) (.str sel) = .fulfilled (jsGet res sel))
    ∧ (∀ res, handleRequest (.ok res) JSValue.undefined = .fulfilled res)
    ∧ (∀ sel, sel ∈ usedSelectors →
      handleRequest (.ok JSValue.null) (.str sel)
        = .rejected (.str ("TypeError: Cannot read properties of null (reading " ++ sel ++ ")")))
    ∧ (∀ sel, sel ∈ usedSelectors →
      handleRequest (.ok JSValue.undefined) (.str sel)
        = .rejected
            (.str ("TypeError: Cannot read properties of undefined (reading " ++ sel ++ ")"))) := by
  refine ⟨?_, ?_, ?_, ?_⟩
  · intro res sel hmem h1 h2
    simp [handleRequest, jsToString, usedSelectors_truthy sel hmem,
      jsGetField_ok res sel h1 h2]
  · intro res
    rfl
  · intro sel hmem
    have hne : ¬ sel = "" := by
      simpa [truthy] using usedSelectors_truthy sel hmem
    simp [handleRequest, jsToString, jsGetField, classifyError, jsGet, truthy, hne]
  · intro sel hmem
    have hne : ¬ sel = "" := by
      simpa [truthy] using usedSelectors_truthy sel hmem
    simp [handleRequest, jsToString, jsGetField, classifyError, jsGet, truthy, hne]

/-- Witness for C3: a body enveloping a deployments array, requested
with the deployments selector, resolves to the array. -/
theorem selector_extraction_witness :
    handleRequest
      (.ok (JSValue.obj [("deployments", JSValue.arr [JSValue.num 1, JSValue.num 2])]))
      (JSValue.str "deployments")
      = .fulfilled (JSValue.arr [JSValue.num 1, JSValue.num 2]) :=
  selector_extraction.1
    (JSValue.obj [("deployments", JSValue.arr [JSValue.num 1, JSValue.num 2])])
    "deployments" (by simp [usedSelectors]) (fun h => nomatch h) (fun h => nomatch h)

/-- C10 (counterexample): the claim that selector lookup never turns a
successful response into an error fails at the successful body null
with the deployments selector: null contains no field of that name,
yet the call rejects (with the stringified TypeError from the then
handler) instead of fulfilling with undefined. -/
theorem selector_absent_field_fulfills_counterexample :
    handleRequest (.ok JSValue.null) (JSValue.str "deployments")
      = .rejected (JSValue.str "TypeError: Cannot read properties of null (reading deployments)")
    ∧ handleRequest (.ok JSValue.null) (JSValue.str "deployments")
      ≠ .fulfilled JSValue.undefined :=
  ⟨rfl, fun h => Outcome.noConfusion h⟩

/-- C10 as amended: with a supplied selector naming a field the
successful object response body does not contain, the call still
fulfills, with the undefined value of the absent property; and on the
success path a rejection arises only when the body itself is null or
undefined and the selector is truthy (the selector read throws and
the chained catch rejects with its string representation). -/
theorem selector_absent_field_fulfills :
    (∀ fields sel, sel ∈ usedSelectors → sel ∉ fields.map Prod.fst →
      handleRequest (.ok (.obj fields)) (.str sel) = .fulfilled JSValue.undefined)
    ∧ (∀ res sv v, handleRequest (.ok res) sv = .rejected v →
      (res = JSValue.null ∨ res = JSValue.undefined) ∧ truthy sv = true) := by
  constructor
  · intro fields sel h1 h2
    simp [handleRequest, jsToString, usedSelectors_truthy sel h1, jsGetField, jsGet,
      lookupField_of_not_mem fields sel h2]
  · intro res sv v h
    unfold handleRequest at h
    cases htr : truthy sv
    · rw [htr] at h
      exact Outcome.noConfusion h
    · rw [htr] at h
      cases res with
      | undefined => exact ⟨Or.inr rfl, rfl⟩
      | null => exact ⟨Or.inl rfl, rfl⟩
      | bool b => exact Outcome.noConfusion h
      | num n => exact Outcome.noConfusion h
      | str s => exact Outcome.noConfusion h
      | obj fields => exact Outcome.noConfusion h
      | arr elems => exact Outcome.noConfusion h
      | func tag => exact Outcome.noConfusion h

/-- Witness for C10: a body with only a secrets field, read with the
deployments selector, fulfills with undefined. -/
theorem selector_absent_field_fulfills_witness :
    handleRequest (.ok (JSValue.obj [("secrets", JSValue.arr [])]))
      (JSValue.str "deployments")
      = .fulfilled JSValue.undefined :=
  selector_absent_field_fulfills.1 [("secrets", JSValue.arr [])] "deployments"
    (by simp [usedSelectors]) (by simp)

/-- C4 (failing input): addDomain called with an undefined domain
argument throws a TypeError synchronously while reading domain.name,
instead of returning a rejected promise; this contradicts the
stated propagation policy that all errors, including malformed
arguments, surface only through the rejected promise. -/
theorem addDomain_throws_on_nullish_domain :
    addDomain JSValue.undefined JSValue.undefined
      = .error (JSValue.str "TypeError: Cannot read properties of undefined (reading name)") :=
  rfl

/-- C5: the fixed pair for a missing alias parameter carries the code
missing_body, identical to the code of the missing body pair, while
its message names the alias parameter; every other missing parameter
pair carries the code naming its own parameter kind; and createAlias
with a truthy id and a falsy alias rejects with exactly that pair. -/
theorem missing_alias_code_collision :
    jsGet ERROR_MISSING_ALIAS "code" = JSValue.str "missing_body"
    ∧ jsGet ERROR_MISSING_ALIAS "code" = jsGet ERROR_MISSING_BODY "code"
    ∧ jsGet ERROR_MISSING_ALIAS "message" = JSValue.str "Missing `alias` parameter"
    ∧ jsGet ERROR_MISSING_ID "code" = JSValue.str "missing_id"
    ∧ jsGet ERROR_MISSING_FILE_ID "code" = JSValue.str "missing_file_id"
    ∧ jsGet ERROR_MISSING_CN "code" = JSValue.str "missing_cn"
    ∧ jsGet ERROR_MISSING_NAME "code" = JSValue.str "missing_name"
    ∧ jsGet ERROR_MISSING_VALUE "code" = JSValue.str "missing_value"
    ∧ (∀ id aliasV cb, truthy id = true → truthy aliasV = false →
        createAlias id aliasV cb = .rejectWith ERROR_MISSING_ALIAS cb) := by
  refine ⟨rfl, rfl, rfl, rfl, rfl, rfl, rfl, rfl, ?_⟩
  intro id aliasV cb h1 h2
  simp [createAlias, h1, h2]

/-- Witness for C5: createAlias with a present deployment id and an
undefined alias rejects with the alias pair (whose code is
missing_body). -/
theorem missing_alias_code_collision_witness :
    createAlias (JSValue.str "d1") JSValue.undefined JSValue.undefined
      = .rejectWith ERROR_MISSING_ALIAS JSValue.undefined :=
  missing_alias_code_collision.2.2.2.2.2.2.2.2
    (JSValue.str "d1") JSValue.undefined JSValue.undefined rfl rfl

/-- C6: a function first argument to getCertificates is taken as the
callback and the request targets the certificate list path; a string
first argument cn targets the single certificate path with the second
argument as callback; both requests are GET and both are unwrapped
with the certs selector. -/
theorem getCertificates_polymorphic :
    (∀ tag cb, getCertificates (.func tag) cb
      = .sendRequest ⟨"/now/certs", "get", none, none⟩ (.func tag) (.str "certs"))
    ∧ (∀ cn cb, getCertificates (.str cn) cb
      = .sendRequest ⟨"/now/certs/" ++ cn, "get", none, none⟩ cb (.str "certs")) := by
  constructor
  · intro tag cb; rfl
  · intro cn cb; rfl

/-- Witness for C6: a concrete common name is appended to the path
and the second argument stays the callback. -/
theorem getCertificates_polymorphic_witness :
    getCertificates (JSValue.str "example.com") (JSValue.func 7)
      = .sendRequest ⟨"/now/certs/example.com", "get", none, none⟩
          (JSValue.func 7) (JSValue.str "certs") :=
  getCertificates_polymorphic.2 "example.com" (JSValue.func 7)

/-- C7: when no credential resolves from any source, constructing a
client (with new or as a plain call) does not throw: the body returns
early through console.error, logging the missing token message, and
yields no client instance, so no field or transport is configured.
In the embedding neither constructor path has a throwing operation,
so the result type carries no exception case at all. -/
theorem no_token_yields_no_client (tokenArg : JSValue) (env : Env)
    (h : truthy (resolvedToken tokenArg env) = false) :
    NowAsNew tokenArg env = .noClient noTokenMessage
    ∧ NowAsFunction tokenArg env = .noClient noTokenMessage := by
  constructor
  · simp [NowAsNew, h]
  · simp [NowAsFunction, h]

/-- Witness for C7: undefined argument, no NOW_TOKEN, and a config
file whose require throws leave no usable client. -/
theorem no_token_yields_no_client_witness :
    NowAsNew JSValue.undefined
      ⟨JSValue.undefined, .error (JSValue.str "Error: Cannot find module")⟩
      = .noClient noTokenMessage :=
  (no_token_yields_no_client JSValue.undefined
    ⟨JSValue.undefined, .error (JSValue.str "Error: Cannot find module")⟩ rfl).1

/-- C8: credential resolution precedence: a present (not undefined)
explicit argument is used whatever the environment holds; with no
argument, a truthy NOW_TOKEN is used whatever the config file holds;
with no argument and a falsy NOW_TOKEN, the token field of the
readable config file is used. -/
theorem token_resolution_precedence :
    (∀ tokenArg env, isUndefined tokenArg = false →
      resolvedToken tokenArg env = tokenArg)
    ∧ (∀ env, truthy env.nowToken = true →
      resolvedToken JSValue.undefined env = env.nowToken)
    ∧ (∀ env cfg, truthy env.nowToken = false → env.configFile = .ok cfg →
      cfg ≠ JSValue.undefined → cfg ≠ JSValue.null →
      resolvedToken JSValue.undefined env = jsGet cfg "token") := by
  refine ⟨?_, ?_, ?_⟩
  · intro tokenArg env h
    simp [resolvedToken, h]
  · intro env h
    simp [resolvedToken, isUndefined, _getToken, h]
  · intro env cfg h1 h2 h3 h4
    simp [resolvedToken, isUndefined, _getToken, h1, h2, jsGetField_ok cfg "token" h3 h4]

/-- Witness for C8: with an undefined argument and an unset NOW_TOKEN,
the token field of the config file resolves. -/
theorem token_resolution_precedence_witness :
    resolvedToken JSValue.undefined
      ⟨JSValue.undefined, .ok (JSValue.obj [("token", JSValue.str "tok")])⟩
      = JSValue.str "tok" :=
  token_resolution_precedence.2.2
    ⟨JSValue.undefined, .ok (JSValue.obj [("token", JSValue.str "tok")])⟩
    (JSValue.obj [("token", JSValue.str "tok")])
    rfl rfl (fun h => nomatch h) (fun h => nomatch h)

/-- C9: when a token resolves, calling Now as a plain function yields
the same result as calling it with new, namely a client instance whose
token field and request defaults come from the same resolved token. -/
theorem plain_call_equals_new (tokenArg : JSValue) (env : Env)
    (h : truthy (resolvedToken tokenArg env) = true) :
    NowAsFunction tokenArg env = NowAsNew tokenArg env
    ∧ NowAsNew tokenArg env = .client (mkClient (resolvedToken tokenArg env)) := by
  have hA : NowAsNew tokenArg env = .client (mkClient (resolvedToken tokenArg env)) := by
    simp [NowAsNew, h]
  have hB : NowAsFunction tokenArg env
      = NowAsNew (resolvedToken tokenArg env) env := by
    simp [NowAsFunction, h]
  have hC : ∀ t, truthy t = true → NowAsNew t env = .client (mkClient t) := by
    intro t ht
    simp [NowAsNew, resolvedToken, truthy_isUndefined_false t ht, ht]
  exact ⟨hB.trans ((hC _ h).trans hA.symm), hA⟩

/-- Witness for C9: with an explicit token string both call forms
agree. -/
theorem plain_call_equals_new_witness :
    NowAsFunction (JSValue.str "tok")
      ⟨JSValue.undefined, .error (JSValue.str "Error: Cannot find module")⟩
      = NowAsNew (JSValue.str "tok")
      ⟨JSValue.undefined, .error (JSValue.str "Error: Cannot find module")⟩ :=
  (plain_call_equals_new (JSValue.str "tok")
    ⟨JSValue.undefined, .error (JSValue.str "Error: Cannot find module")⟩ rfl).1

end NowJS
